import Mathlib

/-!
Shallow embedding of the schema-inference and batched-import pipeline of
`src/backend/main.py` (a FastAPI bridge between ClickHouse and flat files),
together with the export endpoint's empty-result branch.

Modelling conventions:
* A parsed CSV file (the result of `pd.read_csv(..., dtype=str, na_filter=False)`)
  is a `DataFrame`: a list of column names and a list of rows of raw strings.
  Because the file is parsed with `dtype=str`, pandas assigns dtype `object` to
  every column; `df_dtypes` reflects that.
* The ClickHouse client is modelled by a success oracle `sink : Nat → Bool`
  telling whether the k-th `client.insert` call succeeds, plus the error
  message `sinkErr` carried by the exception when it fails.  `client.command`
  (DDL execution) is modelled as succeeding; no claim concerns DDL failure.
* `HTTPException(status_code, detail)` becomes `ApiError`.
* Timestamps (`imported_at`, `exported_at`) and logging are omitted: they are
  non-deterministic side channels no claim refers to.
-/

namespace Ingest

/-- A row of raw text cells (`dtype=str`: every cell is a string). -/
abbrev Row : Type := List String

/-- The parsed flat file: ordered column names and ordered rows. -/
structure DataFrame where
  columns : List String
  rows : List Row
deriving Repr, DecidableEq

/-- `df.empty` in pandas: true iff any axis has length 0 (zero rows or zero
columns). -/
def DataFrame.isEmptyDf (df : DataFrame) : Bool :=
  df.rows.isEmpty || df.columns.isEmpty

/-- `HTTPException(status_code=..., detail=...)` from main.py. -/
structure ApiError where
  statusCode : Nat
  detail : String
deriving Repr, DecidableEq

/-- The JSON body returned on import success (main.py lines 288-294);
`imported_at` omitted (non-deterministic timestamp). -/
structure ImportResponse where
  status : String
  count : Nat
  columns : List String
  table : String
deriving Repr, DecidableEq

/-- `pd.read_csv(..., dtype=str)` gives every column the pandas dtype
`object`; `df.dtypes.items()` therefore pairs each column name with
`"object"`, in column order. -/
def df_dtypes (df : DataFrame) : List (String × String) :=
  df.columns.map (fun c => (c, "object"))

/-- The `type_mapping` dict of main.py lines 250-256. -/
def type_mapping (dtype : String) : Option String :=
  if dtype = "int64" then some "Int64"
  else if dtype = "float64" then some "Float64"
  else if dtype = "bool" then some "UInt8"
  else if dtype = "datetime64" then some "DateTime"
  else if dtype = "object" then some "String"
  else none

/-- `type_mapping.get(str(dtype), 'String')` of main.py line 260. -/
def chType (dtype : String) : String :=
  (type_mapping dtype).getD "String"

/-- The `columns_def` list of main.py lines 258-261: one backquoted column
name followed by its ClickHouse type, per column, in column order. -/
def columns_def (df : DataFrame) : List String :=
  (df_dtypes df).map (fun p => "`" ++ p.1 ++ "` " ++ chType p.2)

/-- The `create_table_sql` string of main.py lines 263-268. -/
def create_table_sql (table : String) (df : DataFrame) : String :=
  "CREATE TABLE IF NOT EXISTS `" ++ table ++ "` ("
    ++ String.intercalate ", " (columns_def df)
    ++ ") ENGINE = MergeTree() ORDER BY tuple()"

/-- Python `str.lower()`, modelled on the string's character sequence
(character-wise lowercasing; the filenames concerned are ASCII). -/
def lowerChars (s : String) : List Char := s.data.map Char.toLower

/-- Python `str.endswith` on character sequences: `l` ends with `suff` iff
the last `suff.length` characters of `l` are exactly `suff`. -/
def endsWithChars (l suff : List Char) : Bool :=
  decide (l.drop (l.length - suff.length) = suff)

/-- The filename check of main.py line 227:
`file.filename.lower().endswith(('.csv', '.txt'))`. -/
def validExtension (name : String) : Bool :=
  endsWithChars (lowerChars name) ".csv".data
    || endsWithChars (lowerChars name) ".txt".data

/-- `batch_size = 10000` (main.py line 274). -/
def batch_size : Nat := 10000

/-- The batching of main.py line 278-279:
`for i in range(0, total_rows, batch_size): batch = df.iloc[i:i+batch_size]`,
i.e. consecutive slices of `size` rows.  For `0 < size` (the code always uses
10000) the recursive argument `xs.drop (size - 1)` equals
`(x :: xs).drop size`, the remainder of the rows after the slice; the
`size - 1` form only serves termination. -/
def chunksOf {α : Type} (size : Nat) : List α → List (List α)
  | [] => []
  | x :: xs => ((x :: xs).take size) :: chunksOf size (xs.drop (size - 1))
termination_by l => l.length
decreasing_by
  simp only [List.length_drop, List.length_cons]
  omega

/-- The observable outcome of the insert loop of main.py lines 274-286:
`inserted` is the final `inserted_rows` counter (rows of successfully
inserted chunks), `submitted` the list of chunks the sink's `insert` was
called with, in call order, `remaining` the rows not successfully inserted
(the spec's rowsRemainingUnattempted: the failed chunk's rows plus all rows
after it), and `ok` whether every insert call succeeded. -/
structure LoadResult where
  inserted : Nat
  submitted : List (List Row)
  remaining : List Row
  ok : Bool
deriving Repr, DecidableEq

/-- The insert loop of main.py lines 278-286 over an already-chunked row
list: `idx` is the index of the next chunk (next `client.insert` call).  A
chunk whose insert fails raises, so no later chunk is submitted and
`inserted_rows` is not incremented for it. -/
def loadGo (sink : Nat → Bool) : Nat → List (List Row) → LoadResult
  | _, [] => ⟨0, [], [], true⟩
  | idx, c :: cs =>
    if sink idx then
      let r := loadGo sink (idx + 1) cs
      ⟨c.length + r.inserted, c :: r.submitted, r.remaining, r.ok⟩
    else
      ⟨0, [c], c ++ cs.flatten, false⟩

/-- The Batch Loader: chunk the rows, then run the insert loop. -/
def load (sink : Nat → Bool) (size : Nat) (rows : List Row) : LoadResult :=
  loadGo sink 0 (chunksOf size rows)

instance {ε α : Type} [DecidableEq ε] [DecidableEq α] : DecidableEq (Except ε α) := fun
  | .ok a, .ok b =>
    if h : a = b then .isTrue (by rw [h]) else .isFalse (fun hc => by cases hc; exact h rfl)
  | .ok _, .error _ => .isFalse (fun hc => by cases hc)
  | .error _, .ok _ => .isFalse (fun hc => by cases hc)
  | .error a, .error b =>
    if h : a = b then .isTrue (by rw [h]) else .isFalse (fun hc => by cases hc; exact h rfl)

/-- The full observable behaviour of one call of the import endpoint:
the DDL statement issued via `client.command` (if any), the chunks
submitted via `client.insert`, the final `inserted_rows` counter, and the
HTTP outcome. -/
structure ImportRun where
  ddl : Option String
  submitted : List (List Row)
  inserted : Nat
  result : Except ApiError ImportResponse
deriving Repr, DecidableEq

/-- The `/flatfile-to-clickhouse` endpoint (main.py lines 217-302), for a
file that decoded as UTF-8 and parsed into `df`.  Order of checks follows
the source: filename extension (line 227, before the contents are read),
`df.empty` (line 241), DDL (line 271), batched inserts (lines 278-286);
an insert failure propagates to the generic handler (lines 297-302) which
returns HTTP 500 with detail `"Import failed: " ++ sinkErr`. -/
def flatfile_to_clickhouse (filename : String) (df : DataFrame) (table : String)
    (sink : Nat → Bool) (sinkErr : String) : ImportRun :=
  if ¬ validExtension filename then
    ⟨none, [], 0, Except.error ⟨400, "Only CSV files are supported"⟩⟩
  else if df.isEmptyDf then
    ⟨none, [], 0, Except.error ⟨400, "File is empty or invalid format"⟩⟩
  else
    let sql := create_table_sql table df
    let r := load sink batch_size df.rows
    if r.ok then
      ⟨some sql, r.submitted, r.inserted,
        Except.ok ⟨"success", r.inserted, df.columns, table⟩⟩
    else
      ⟨some sql, r.submitted, r.inserted,
        Except.error ⟨500, "Import failed: " ++ sinkErr⟩⟩

/-- The JSON body of the export endpoint; `query` and `exported_at` of the
non-empty branch are omitted (the latter is a timestamp). -/
structure ExportResponse where
  status : String
  data : String
  count : Nat
  message : Option String
deriving Repr, DecidableEq

/-- `df.to_csv(index=False, encoding='utf-8-sig')` of main.py line 194,
modelled as BOM + comma-joined header + newline-joined comma-joined rows.
Quoting of cells containing delimiters is not modelled; no claim depends on
the non-empty branch's payload. -/
def to_csv (columns : List String) (rows : List Row) : String :=
  "\uFEFF" ++ String.intercalate "," columns ++ "\n"
    ++ String.intercalate "\n" (rows.map (String.intercalate ",")) ++ "\n"

/-- The `/clickhouse-to-flatfile` endpoint's body after the query returned
(main.py lines 185-202), as a function of the query's `result_rows`. -/
def clickhouse_to_flatfile (columns : List String) (resultRows : List Row) :
    ExportResponse :=
  if resultRows.isEmpty then
    ⟨"success", "", 0, some "No data found"⟩
  else
    ⟨"success", to_csv columns resultRows, resultRows.length, none⟩

/-! ## Helper lemmas -/

/-- For a positive chunk size, one unfolding of `chunksOf` slices off the
first `size` rows, exactly like `df.iloc[i:i+batch_size]`. -/
lemma chunksOf_step {α : Type} (size : Nat) (hs : 0 < size) (l : List α) (hl : l ≠ []) :
    chunksOf size l = l.take size :: chunksOf size (l.drop size) := by
  match l with
  | [] => exact absurd rfl hl
  | x :: xs =>
    rw [chunksOf]
    congr 2
    match size, hs with
    | s + 1, _ => simp

lemma chunksOf_nil_iff {α : Type} (size : Nat) (l : List α) :
    chunksOf size l = [] ↔ l = [] := by
  match l with
  | [] => simp [chunksOf]
  | x :: xs => rw [chunksOf]; simp

/-- Concatenating the chunks in order restores the original row sequence. -/
lemma chunksOf_flatten {α : Type} (size : Nat) (hs : 0 < size) (l : List α) :
    (chunksOf size l).flatten = l := by
  match l with
  | [] => simp [chunksOf]
  | x :: xs =>
    rw [chunksOf_step size hs _ (by simp), List.flatten_cons,
      chunksOf_flatten size hs ((x :: xs).drop size)]
    exact List.take_append_drop size (x :: xs)
termination_by l.length
decreasing_by
  simp only [List.length_drop, List.length_cons]
  omega

/-- Every chunk has at most `size` rows. -/
lemma chunksOf_mem_length_le {α : Type} (size : Nat) (l : List α) :
    ∀ c ∈ chunksOf size l, c.length ≤ size := by
  match l with
  | [] => intro c hc; simp [chunksOf] at hc
  | x :: xs =>
    intro c hc
    rw [chunksOf] at hc
    cases List.mem_cons.mp hc with
    | inl h =>
      subst h
      simp only [List.length_take]
      exact min_le_left _ _
    | inr h => exact chunksOf_mem_length_le size (xs.drop (size - 1)) c h
termination_by l.length
decreasing_by
  simp only [List.length_drop, List.length_cons]
  omega

/-- Every chunk except possibly the last has exactly `size` rows. -/
lemma chunksOf_dropLast_length {α : Type} (size : Nat) (hs : 0 < size) (l : List α) :
    ∀ c ∈ (chunksOf size l).dropLast, c.length = size := by
  match l with
  | [] => intro c hc; simp [chunksOf] at hc
  | x :: xs =>
    intro c hc
    rw [chunksOf_step size hs _ (by simp)] at hc
    by_cases hrest : chunksOf size ((x :: xs).drop size) = []
    · rw [hrest] at hc
      simp at hc
    · rw [List.dropLast_cons_of_ne_nil hrest] at hc
      cases List.mem_cons.mp hc with
      | inl h =>
        subst h
        have hne : (x :: xs).drop size ≠ [] := by
          intro h0
          rw [h0] at hrest
          exact hrest (by simp [chunksOf])
        have hlt : size < (x :: xs).length := by
          by_contra hge
          push_neg at hge
          exact hne (List.drop_eq_nil_of_le hge)
        simp only [List.length_take]
        omega
      | inr h => exact chunksOf_dropLast_length size hs ((x :: xs).drop size) c h
termination_by l.length
decreasing_by
  simp only [List.length_drop, List.length_cons]
  omega

/-- The chunks submitted to the sink form an order-preserving initial
segment of the chunk sequence: the loop submits chunks strictly in order
and stops at the first failure. -/
lemma loadGo_submitted_initial (sink : Nat → Bool) (idx : Nat)
    (chunks : List (List Row)) :
    ∃ t, (loadGo sink idx chunks).submitted ++ t = chunks := by
  induction chunks generalizing idx with
  | nil => exact ⟨[], rfl⟩
  | cons c cs ih =>
    rw [loadGo]
    by_cases h : sink idx
    · obtain ⟨t, ht⟩ := ih (idx + 1)
      exact ⟨t, by simp [h, ht]⟩
    · exact ⟨cs, by simp [h]⟩

/-- Row-count bookkeeping of the loop: the inserted counter plus the rows
not successfully inserted always add up to the total row count. -/
lemma loadGo_inserted_remaining (sink : Nat → Bool) (idx : Nat)
    (chunks : List (List Row)) :
    (loadGo sink idx chunks).inserted + (loadGo sink idx chunks).remaining.length
      = chunks.flatten.length := by
  induction chunks generalizing idx with
  | nil => simp [loadGo]
  | cons c cs ih =>
    rw [loadGo]
    by_cases h : sink idx
    · simp only [h, if_true]
      have := ih (idx + 1)
      simp only [List.flatten_cons, List.length_append]
      omega
    · simp [h, List.length_append]

/-- When every insert call succeeds, the loop inserts everything, submits
every chunk in order, and leaves nothing remaining. -/
lemma loadGo_success (sink : Nat → Bool) (hsink : ∀ i, sink i = true)
    (idx : Nat) (chunks : List (List Row)) :
    loadGo sink idx chunks = ⟨chunks.flatten.length, chunks, [], true⟩ := by
  induction chunks generalizing idx with
  | nil => simp [loadGo]
  | cons c cs ih =>
    rw [loadGo]
    simp [hsink idx, ih (idx + 1), List.length_append]

/-- When the sink first fails on chunk `k` (zero-based, relative to `idx`),
the loop inserts exactly the rows of the first `k` chunks, submits the
first `k + 1` chunks and no more, and leaves the rows from chunk `k`
onwards remaining. -/
lemma loadGo_fail (sink : Nat → Bool) (k : Nat) (idx : Nat)
    (chunks : List (List Row))
    (hpre : ∀ j, j < k → sink (idx + j) = true)
    (hk : sink (idx + k) = false)
    (hlen : k < chunks.length) :
    loadGo sink idx chunks =
      ⟨((chunks.take k).flatten).length, chunks.take (k + 1),
        (chunks.drop k).flatten, false⟩ := by
  induction k generalizing idx chunks with
  | zero =>
    match chunks with
    | [] => simp at hlen
    | c :: cs =>
      rw [loadGo]
      simp only [Nat.add_zero] at hk
      simp [hk]
  | succ k ih =>
    match chunks with
    | [] => simp at hlen
    | c :: cs =>
      have h0 : sink idx = true := by simpa using hpre 0 (Nat.succ_pos k)
      rw [loadGo]
      simp only [h0, if_true]
      have hrec := ih (idx + 1) cs
        (fun j hj => by
          have := hpre (j + 1) (Nat.succ_lt_succ hj)
          simpa [Nat.add_assoc, Nat.add_comm 1 j] using this)
        (by simpa [Nat.add_assoc, Nat.add_comm 1 k] using hk)
        (by simpa using Nat.lt_of_succ_lt_succ (by simpa using hlen))
      rw [hrec]
      simp [List.length_append]

/-- With `dtype=str` every column's dtype is `object`, so every column
definition renders the ClickHouse type `String`. -/
lemma columns_def_map (df : DataFrame) :
    columns_def df = df.columns.map (fun c => "`" ++ c ++ "` String") := by
  simp only [columns_def, df_dtypes, List.map_map]
  apply List.map_congr_left
  intro a _
  show ("`" ++ a ++ "` ") ++ chType "object" = "`" ++ a ++ "` String"
  rw [show chType "object" = "String" from rfl, String.append_assoc]
  rfl

/-- Characterization of a fully successful import run. -/
lemma flatfile_success_run (filename : String) (df : DataFrame) (table : String)
    (sink : Nat → Bool) (e : String)
    (hext : validExtension filename = true)
    (hne : df.isEmptyDf = false)
    (hsink : ∀ i, sink i = true) :
    flatfile_to_clickhouse filename df table sink e =
      ⟨some (create_table_sql table df), chunksOf batch_size df.rows,
        df.rows.length,
        Except.ok ⟨"success", df.rows.length, df.columns, table⟩⟩ := by
  unfold flatfile_to_clickhouse load
  rw [loadGo_success sink hsink 0 (chunksOf batch_size df.rows)]
  have hfl : (chunksOf batch_size df.rows).flatten = df.rows :=
    chunksOf_flatten batch_size (by norm_num [batch_size]) df.rows
  simp [hext, hne, hfl]

/-- Characterization of an import run whose sink first fails on chunk `k`:
the first `k` chunks are inserted, chunk `k` is submitted once and fails,
nothing later is submitted, and the outcome is the generic HTTP 500. -/
lemma flatfile_fail_run (filename : String) (df : DataFrame) (table : String)
    (sink : Nat → Bool) (e : String) (k : Nat)
    (hext : validExtension filename = true)
    (hne : df.isEmptyDf = false)
    (hpre : ∀ j, j < k → sink j = true)
    (hk : sink k = false)
    (hlen : k < (chunksOf batch_size df.rows).length) :
    flatfile_to_clickhouse filename df table sink e =
      ⟨some (create_table_sql table df),
        (chunksOf batch_size df.rows).take (k + 1),
        (((chunksOf batch_size df.rows).take k).flatten).length,
        Except.error ⟨500, "Import failed: " ++ e⟩⟩ := by
  unfold flatfile_to_clickhouse load
  rw [loadGo_fail sink k 0 (chunksOf batch_size df.rows)
    (fun j hj => by simpa using hpre j hj) (by simpa using hk) hlen]
  simp [hext, hne]

/-! ## Claims -/

/-- C4: for every CSV file accepted by the import endpoint, every column of
the generated CREATE TABLE statement is given type String, regardless of the
column's cell contents: `dtype=str` makes every pandas dtype `object`, which
the type mapping sends to `String`, so no imported column is ever typed
Int64, Float64, UInt8, or DateTime. -/
theorem C4_all_columns_string (df : DataFrame) (d : String)
    (hd : d ∈ columns_def df) :
    (∃ c, c ∈ df.columns ∧ d = "`" ++ c ++ "` String") ∧
    (∀ p ∈ df_dtypes df, p.2 = "object") := by
  constructor
  · rw [columns_def_map] at hd
    obtain ⟨c, hc, h⟩ := List.mem_map.mp hd
    exact ⟨c, hc, h.symm⟩
  · intro p hp
    obtain ⟨c, _, h⟩ := List.mem_map.mp hp
    rw [← h]

/-- Witness for C4 at a one-column table holding the integer literal "1":
its column definition is nonetheless typed String. -/
theorem C4_all_columns_string_witness :
    "`a` String" ∈ columns_def ⟨["a"], [["1"]]⟩ ∧
    ((∃ c, c ∈ DataFrame.columns ⟨["a"], [["1"]]⟩ ∧
        "`a` String" = "`" ++ c ++ "` String") ∧
      (∀ p ∈ df_dtypes ⟨["a"], [["1"]]⟩, p.2 = "object")) :=
  ⟨by rw [columns_def_map]; simp,
   C4_all_columns_string ⟨["a"], [["1"]]⟩ "`a` String"
     (by rw [columns_def_map]; simp)⟩

/-- C5: for every import request presenting zero rows (or zero columns,
i.e. `df.empty`), the operation fails with the empty-input error (HTTP 400,
"File is empty or invalid format"), no schema is built and no DDL statement
is issued to the sink, and no rows are inserted. -/
theorem C5_empty_input (filename : String) (df : DataFrame) (table : String)
    (sink : Nat → Bool) (e : String)
    (hext : validExtension filename = true)
    (hempty : df.isEmptyDf = true) :
    flatfile_to_clickhouse filename df table sink e =
      ⟨none, [], 0, Except.error ⟨400, "File is empty or invalid format"⟩⟩ := by
  unfold flatfile_to_clickhouse
  simp [hext, hempty]

/-- Witness for C5: a header-only file (column "a", zero rows). -/
theorem C5_empty_input_witness :
    validExtension "a.csv" = true ∧
    DataFrame.isEmptyDf ⟨["a"], []⟩ = true ∧
    flatfile_to_clickhouse "a.csv" ⟨["a"], []⟩ "t" (fun _ => true) "e" =
      ⟨none, [], 0, Except.error ⟨400, "File is empty or invalid format"⟩⟩ :=
  ⟨by decide, by decide,
   C5_empty_input "a.csv" ⟨["a"], []⟩ "t" (fun _ => true) "e"
     (by decide) (by decide)⟩

/-- C6: for every input row set and every positive chunkSize, the loader
partitions the rows into consecutive chunks of at most chunkSize rows, all
chunks except possibly the last of exactly chunkSize rows, the concatenation
of the chunks in submission order equals the original row sequence, and the
chunks submitted to the sink form an order-preserving initial segment of
that chunk sequence (chunk N+1 is never submitted unless chunk N's insert
call returned). -/
theorem C6_chunking (rows : List Row) (size : Nat) (hs : 0 < size) :
    (chunksOf size rows).flatten = rows ∧
    (∀ c ∈ chunksOf size rows, c.length ≤ size) ∧
    (∀ c ∈ (chunksOf size rows).dropLast, c.length = size) ∧
    (∀ sink idx, ∃ t, (loadGo sink idx (chunksOf size rows)).submitted ++ t
        = chunksOf size rows) :=
  ⟨chunksOf_flatten size hs rows, chunksOf_mem_length_le size rows,
   chunksOf_dropLast_length size hs rows,
   fun sink idx => loadGo_submitted_initial sink idx (chunksOf size rows)⟩

/-- Witness for C6: three rows, chunk size two. -/
theorem C6_chunking_witness :
    0 < 2 ∧
    ((chunksOf 2 [["1"], ["2"], ["3"]]).flatten = [["1"], ["2"], ["3"]] ∧
      (∀ c ∈ chunksOf 2 [["1"], ["2"], ["3"]], c.length ≤ 2) ∧
      (∀ c ∈ (chunksOf 2 [["1"], ["2"], ["3"]]).dropLast, c.length = 2) ∧
      (∀ sink idx,
        ∃ t, (loadGo sink idx (chunksOf 2 [["1"], ["2"], ["3"]])).submitted ++ t
          = chunksOf 2 [["1"], ["2"], ["3"]])) :=
  ⟨by decide, C6_chunking [["1"], ["2"], ["3"]] 2 (by decide)⟩

/-- C7: after any run of the loader, success or failure,
inserted + rowsRemainingUnattempted = total rows; and when every chunk's
insert succeeds, the import returns a success result whose count equals the
total number of source rows, together with the table name and the column
schema used. -/
theorem C7_row_count_invariant (sink : Nat → Bool) (size : Nat)
    (rows : List Row) (filename : String) (df : DataFrame) (table : String)
    (e : String) (hs : 0 < size) :
    (load sink size rows).inserted + (load sink size rows).remaining.length
        = rows.length ∧
    ((∀ i, sink i = true) → (load sink size rows).inserted = rows.length) ∧
    (validExtension filename = true → df.isEmptyDf = false →
      (∀ i, sink i = true) →
      (flatfile_to_clickhouse filename df table sink e).result
        = Except.ok ⟨"success", df.rows.length, df.columns, table⟩) := by
  refine ⟨?_, ?_, ?_⟩
  · have h := loadGo_inserted_remaining sink 0 (chunksOf size rows)
    rw [chunksOf_flatten size hs rows] at h
    exact h
  · intro hsink
    unfold load
    rw [loadGo_success sink hsink 0 (chunksOf size rows),
      chunksOf_flatten size hs rows]
  · intro hext hne hsink
    rw [flatfile_success_run filename df table sink e hext hne hsink]

/-- Witness for C7: two rows, chunk size one, an always-succeeding sink. -/
theorem C7_row_count_invariant_witness :
    0 < 1 ∧
    ((load (fun _ => true) 1 [["1"], ["2"]]).inserted
          + (load (fun _ => true) 1 [["1"], ["2"]]).remaining.length = 2 ∧
      ((∀ i, (fun _ => true : Nat → Bool) i = true) →
        (load (fun _ => true) 1 [["1"], ["2"]]).inserted = 2) ∧
      (validExtension "a.csv" = true →
        DataFrame.isEmptyDf ⟨["a"], [["1"], ["2"]]⟩ = false →
        (∀ i, (fun _ => true : Nat → Bool) i = true) →
        (flatfile_to_clickhouse "a.csv" ⟨["a"], [["1"], ["2"]]⟩ "t"
            (fun _ => true) "e").result
          = Except.ok ⟨"success",
              (DataFrame.rows ⟨["a"], [["1"], ["2"]]⟩).length, ["a"], "t"⟩)) :=
  ⟨by decide,
   C7_row_count_invariant (fun _ => true) 1 [["1"], ["2"]] "a.csv"
     ⟨["a"], [["1"], ["2"]]⟩ "t" "e" (by decide)⟩

/-- C8: schema building followed by DDL rendering is deterministic: two runs
on the same RawTable (same ordered column names) and the same tableName
produce the identical CREATE TABLE string, and the rendered column
definitions follow the RawTable's column order. -/
theorem C8_deterministic_ddl (df df' : DataFrame) (table : String)
    (hcols : df.columns = df'.columns) :
    create_table_sql table df = create_table_sql table df' ∧
    columns_def df = df.columns.map (fun c => "`" ++ c ++ "` String") := by
  constructor
  · unfold create_table_sql
    rw [columns_def_map, columns_def_map, hcols]
  · exact columns_def_map df

/-- Witness for C8: two parses of the same table shape give the same DDL. -/
theorem C8_deterministic_ddl_witness :
    DataFrame.columns ⟨["a"], [["x"]]⟩ = DataFrame.columns ⟨["a"], [["y"]]⟩ ∧
    (create_table_sql "t" ⟨["a"], [["x"]]⟩
        = create_table_sql "t" ⟨["a"], [["y"]]⟩ ∧
      columns_def ⟨["a"], [["x"]]⟩
        = (DataFrame.columns ⟨["a"], [["x"]]⟩).map
            (fun c => "`" ++ c ++ "` String")) :=
  ⟨rfl, C8_deterministic_ddl ⟨["a"], [["x"]]⟩ ⟨["a"], [["y"]]⟩ "t" rfl⟩

/-- C9: for every uploaded file whose (lowercased) filename ends in neither
".csv" nor ".txt", the import endpoint rejects it with HTTP 400 before the
file contents are read or parsed — the outcome is a fixed 400 error,
independent of the parsed contents, with no DDL issued and no rows
inserted. -/
theorem C9_invalid_extension (filename : String) (df df' : DataFrame)
    (table table' : String) (sink sink' : Nat → Bool) (e e' : String)
    (hext : validExtension filename = false) :
    flatfile_to_clickhouse filename df table sink e =
      ⟨none, [], 0, Except.error ⟨400, "Only CSV files are supported"⟩⟩ ∧
    flatfile_to_clickhouse filename df table sink e =
      flatfile_to_clickhouse filename df' table' sink' e' := by
  unfold flatfile_to_clickhouse
  simp [hext]

/-- Witness for C9: a ".pdf" upload is rejected whatever it parses to. -/
theorem C9_invalid_extension_witness :
    validExtension "evil.pdf" = false ∧
    (flatfile_to_clickhouse "evil.pdf" ⟨["a"], [["1"]]⟩ "t" (fun _ => true) "e" =
        ⟨none, [], 0, Except.error ⟨400, "Only CSV files are supported"⟩⟩ ∧
      flatfile_to_clickhouse "evil.pdf" ⟨["a"], [["1"]]⟩ "t" (fun _ => true) "e" =
        flatfile_to_clickhouse "evil.pdf" ⟨["b"], []⟩ "u" (fun _ => false) "x") :=
  ⟨by decide,
   C9_invalid_extension "evil.pdf" ⟨["a"], [["1"]]⟩ ⟨["b"], []⟩ "t" "u"
     (fun _ => true) (fun _ => false) "e" "x" (by decide)⟩

/-- C10: for every export request whose query returns zero rows, the export
endpoint returns a success response with empty data and count 0 rather than
an error. -/
theorem C10_empty_export (columns : List String) :
    clickhouse_to_flatfile columns [] =
      ⟨"success", "", 0, some "No data found"⟩ := by
  unfold clickhouse_to_flatfile
  rfl

/-- C1 counterexample: a column whose non-blank raw values are all signed
integer literals ("1", "2") is rendered as String in the DDL, not Int64, so
the claimed Integer inference does not happen. -/
theorem C1_counterexample :
    create_table_sql "t" ⟨["id"], [["1"], ["2"]]⟩ =
      "CREATE TABLE IF NOT EXISTS `t` (`id` String) ENGINE = MergeTree() ORDER BY tuple()" ∧
    columns_def ⟨["id"], [["1"], ["2"]]⟩ = ["`id` String"] ∧
    columns_def ⟨["id"], [["1"], ["2"]]⟩ ≠ ["`id` Int64"] := by
  refine ⟨by decide, by decide, by decide⟩

/-- C1 (amended): every imported column — including an all-integer-literal
column and an all-blank column — is assigned pandas dtype `object` (because
of `dtype=str`) and is rendered with ClickHouse type String in the DDL;
no column is ever rendered Int64. -/
theorem C1_every_column_text (cols : List String) (rows : List Row) :
    columns_def ⟨cols, rows⟩ = cols.map (fun c => "`" ++ c ++ "` String") :=
  columns_def_map ⟨cols, rows⟩

/-- C3 counterexample: an import with table name "1bad" (which starts with a
digit) is not rejected: no InvalidIdentifier error is raised, the CREATE
TABLE statement with the bad name is issued to the sink, and both rows are
inserted — the endpoint performs no identifier validation. -/
theorem C3_counterexample :
    flatfile_to_clickhouse "a.csv" ⟨["id"], [["1"], ["2"]]⟩ "1bad"
        (fun _ => true) "e" =
      ⟨some "CREATE TABLE IF NOT EXISTS `1bad` (`id` String) ENGINE = MergeTree() ORDER BY tuple()",
        [[["1"], ["2"]]], 2,
        Except.ok ⟨"success", 2, ["id"], "1bad"⟩⟩ := by
  rw [flatfile_success_run "a.csv" ⟨["id"], [["1"], ["2"]]⟩ "1bad"
    (fun _ => true) "e" (by decide) (by decide) (fun _ => rfl)]
  have hc : chunksOf batch_size [(["1"] : Row), ["2"]] = [[["1"], ["2"]]] := by
    simp [chunksOf, batch_size]
  rw [hc]
  exact congrArg _ (by decide)

/-- C3 (amended): the import endpoint performs no identifier validation at
all: for every table name (valid identifier or not), once the filename and
non-emptiness checks pass, the CREATE TABLE statement embedding that name is
issued to the sink, and any error the run can produce is the HTTP 500 import
failure, never an invalid-identifier rejection. -/
theorem C3_no_validation (filename : String) (df : DataFrame) (table : String)
    (sink : Nat → Bool) (e : String)
    (hext : validExtension filename = true)
    (hne : df.isEmptyDf = false) :
    (flatfile_to_clickhouse filename df table sink e).ddl
        = some (create_table_sql table df) ∧
    (∀ err, (flatfile_to_clickhouse filename df table sink e).result
        = Except.error err → err.statusCode = 500) := by
  unfold flatfile_to_clickhouse load
  by_cases hok : (loadGo sink 0 (chunksOf batch_size df.rows)).ok
  · constructor
    · simp [hext, hne, hok]
    · intro err herr
      simp [hext, hne, hok] at herr
  · constructor
    · simp [hext, hne, hok]
    · intro err herr
      simp only [hext, hne, Bool.not_true, Bool.false_eq_true, if_false,
        Bool.not_false, if_true, hok] at herr
      simp at herr
      rw [← herr]

/-- Witness for C3 (amended) at table name "1bad". -/
theorem C3_no_validation_witness :
    validExtension "a.csv" = true ∧
    DataFrame.isEmptyDf ⟨["id"], [["1"], ["2"]]⟩ = false ∧
    ((flatfile_to_clickhouse "a.csv" ⟨["id"], [["1"], ["2"]]⟩ "1bad"
          (fun _ => true) "e").ddl
        = some (create_table_sql "1bad" ⟨["id"], [["1"], ["2"]]⟩) ∧
      (∀ err, (flatfile_to_clickhouse "a.csv" ⟨["id"], [["1"], ["2"]]⟩ "1bad"
            (fun _ => true) "e").result
          = Except.error err → err.statusCode = 500)) :=
  ⟨by decide, by decide,
   C3_no_validation "a.csv" ⟨["id"], [["1"], ["2"]]⟩ "1bad" (fun _ => true) "e"
     (by decide) (by decide)⟩

/-- C2 counterexample: two import runs that both fail — one after inserting
10000 rows (sink fails on chunk 2 of a 10002-row file), one after inserting
0 rows — produce the identical error value (HTTP 500, detail
"Import failed: boom"), so the resulting error does not report the count of
rows successfully inserted. -/
theorem C2_counterexample :
    (flatfile_to_clickhouse "a.csv" ⟨["c"], List.replicate 10002 ["x"]⟩ "t"
        (fun i => decide (i = 0)) "boom").inserted = 10000 ∧
    (flatfile_to_clickhouse "a.csv" ⟨["c"], [["x"], ["y"]]⟩ "t"
        (fun _ => false) "boom").inserted = 0 ∧
    (flatfile_to_clickhouse "a.csv" ⟨["c"], List.replicate 10002 ["x"]⟩ "t"
        (fun i => decide (i = 0)) "boom").result =
      (flatfile_to_clickhouse "a.csv" ⟨["c"], [["x"], ["y"]]⟩ "t"
        (fun _ => false) "boom").result := by
  have hc1 : chunksOf batch_size (List.replicate 10002 (["x"] : Row))
      = [List.replicate 10000 ["x"], List.replicate 2 ["x"]] := by
    rw [show batch_size = 10000 from rfl]
    rw [chunksOf_step 10000 (by norm_num) _
      (List.ne_nil_of_length_pos (by rw [List.length_replicate]; norm_num))]
    rw [List.take_replicate, List.drop_replicate]
    rw [chunksOf_step 10000 (by norm_num) _
      (List.ne_nil_of_length_pos (by rw [List.length_replicate]; norm_num))]
    rw [List.take_replicate, List.drop_replicate]
    norm_num
    simp [chunksOf]
  have hc2 : chunksOf batch_size [(["x"] : Row), ["y"]] = [[["x"], ["y"]]] := by
    simp [chunksOf, batch_size]
  have hA := flatfile_fail_run "a.csv" ⟨["c"], List.replicate 10002 ["x"]⟩ "t"
    (fun i => decide (i = 0)) "boom" 1 (by decide)
    (by simp [DataFrame.isEmptyDf, List.isEmpty_iff])
    (fun j hj => by interval_cases j; decide)
    (by decide)
    (by rw [hc1]; decide)
  have hB := flatfile_fail_run "a.csv" ⟨["c"], [["x"], ["y"]]⟩ "t"
    (fun _ => false) "boom" 0 (by decide) (by decide)
    (fun j hj => absurd hj (Nat.not_lt_zero j)) rfl
    (by rw [hc2]; decide)
  refine ⟨?_, ?_, ?_⟩
  · rw [hA, hc1]
    simp only [List.take_succ_cons, List.take_zero, List.flatten_cons,
      List.flatten_nil, List.append_nil, List.length_replicate]
  · rw [hB, hc2]
    simp
  · rw [hA, hB]

/-- C2 (amended): when the sink's insert call first fails on chunk k, the
loader submits no chunk after k and does not retry chunk k (exactly the
chunks up to and including k are submitted, each once), the run reports
exactly the rows of chunks before k as inserted, and the request fails with
the generic HTTP 500 error whose detail is "Import failed: " followed by the
sink's error message — the error does not carry the inserted count. -/
theorem C2_fail_fast (filename : String) (df : DataFrame) (table : String)
    (sink : Nat → Bool) (e : String) (k : Nat)
    (hext : validExtension filename = true)
    (hne : df.isEmptyDf = false)
    (hpre : ∀ j, j < k → sink j = true)
    (hk : sink k = false)
    (hlen : k < (chunksOf batch_size df.rows).length) :
    (flatfile_to_clickhouse filename df table sink e).submitted
        = (chunksOf batch_size df.rows).take (k + 1) ∧
    (flatfile_to_clickhouse filename df table sink e).inserted
        = (((chunksOf batch_size df.rows).take k).flatten).length ∧
    (flatfile_to_clickhouse filename df table sink e).result
        = Except.error ⟨500, "Import failed: " ++ e⟩ := by
  rw [flatfile_fail_run filename df table sink e k hext hne hpre hk hlen]
  exact ⟨rfl, rfl, rfl⟩

/-- Witness for C2 (amended): a two-row single-chunk file whose first insert
fails. -/
theorem C2_fail_fast_witness :
    validExtension "a.csv" = true ∧
    DataFrame.isEmptyDf ⟨["c"], [["x"], ["y"]]⟩ = false ∧
    0 < (chunksOf batch_size (DataFrame.rows ⟨["c"], [["x"], ["y"]]⟩)).length ∧
    ((flatfile_to_clickhouse "a.csv" ⟨["c"], [["x"], ["y"]]⟩ "t"
          (fun _ => false) "boom").submitted
        = (chunksOf batch_size
            (DataFrame.rows ⟨["c"], [["x"], ["y"]]⟩)).take (0 + 1) ∧
      (flatfile_to_clickhouse "a.csv" ⟨["c"], [["x"], ["y"]]⟩ "t"
          (fun _ => false) "boom").inserted
        = (((chunksOf batch_size
            (DataFrame.rows ⟨["c"], [["x"], ["y"]]⟩)).take 0).flatten).length ∧
      (flatfile_to_clickhouse "a.csv" ⟨["c"], [["x"], ["y"]]⟩ "t"
          (fun _ => false) "boom").result
        = Except.error ⟨500, "Import failed: " ++ "boom"⟩) :=
  ⟨by decide, by decide, by simp [chunksOf, batch_size],
   C2_fail_fast "a.csv" ⟨["c"], [["x"], ["y"]]⟩ "t" (fun _ => false) "boom" 0
     (by decide) (by decide) (fun j hj => absurd hj (Nat.not_lt_zero j)) rfl
     (by simp [chunksOf, batch_size])⟩

end Ingest
